import Mathlib

/-!
A verification development for the two MapReduce job definitions of this
repository: the word-count job (`src/example/word_count.py`, class
`MRWordCount`) and the PageRank job (`src/page_rank.py`, class `MRPageRank`).

Modelling conventions:
* Python `float` values (ranks, damping factor) are modelled as exact
  rationals (`ℚ`).
* Python strings are Lean `String`s; where character-level processing
  matters (`strip`, `split`, the word regex) we work on `List Char`.
* The mrjob engine's shuffle (group all emitted values by key) is modelled
  by `groupByKey`, which keeps keys in first-occurrence order and values in
  emission order.
* JSON values produced by `json.dumps` and consumed by `json.loads` are
  modelled by the inductive `JVal` (numbers, strings, booleans, null and
  arrays; JSON objects do not occur in this pipeline and are omitted).
  A serialized intermediate value is modelled as `Option JVal`: `none`
  stands for a string that is not valid JSON (so `json.loads` raises
  `JSONDecodeError`), `some j` for a string parsing to the value `j`.
* Python's tuple unpacking `a, b = x`, truthiness, `len`, numeric coercion
  and iteration on the JSON-derived values are modelled by `unpack2`,
  `truthy`, `pyLen`, `toNumQ` and `pyIter`.
-/

/-! ## Generic helpers: Python string primitives and the shuffle -/

/-- The tab character, the separator of `line.split('\t', 1)`. -/
def tabChar : Char := Char.ofNat 9

/-- Characters removed by Python `str.strip()` on ASCII input:
space, tab, newline, carriage return, vertical tab, form feed. -/
def isPySpace (c : Char) : Bool :=
  c = Char.ofNat 32 || c = Char.ofNat 9 || c = Char.ofNat 10 ||
  c = Char.ofNat 13 || c = Char.ofNat 11 || c = Char.ofNat 12

/-- Python `str.strip()`: drop leading and trailing whitespace. -/
def pyStrip (l : List Char) : List Char :=
  ((l.dropWhile isPySpace).reverse.dropWhile isPySpace).reverse

/-- Python `s.split('\t', 1)`: if the string has no tab it is returned
whole as a one-element list, otherwise the part before the first tab and
the (tab-preserving) part after it form a two-element list. -/
def pySplit1Tab (l : List Char) : List (List Char) :=
  match l.dropWhile (fun c => ¬ c = tabChar) with
  | [] => [l]
  | _ :: post => [l.takeWhile (fun c => ¬ c = tabChar), post]

/-- First-occurrence-order deduplication of a key list. -/
def dedupKeys {α : Type} [DecidableEq α] : List α → List α
  | [] => []
  | k :: rest => k :: (dedupKeys rest).filter (fun x => ¬ x = k)

/-- The shuffle of the MapReduce engine: group every emitted `(key, value)`
pair by key.  Each key appears once (in first-occurrence order) with the
list of all values emitted for it, in emission order. -/
def groupByKey {α β : Type} [DecidableEq α] (ps : List (α × β)) : List (α × List β) :=
  (dedupKeys (ps.map Prod.fst)).map
    (fun k => (k, (ps.filter (fun p => p.1 = k)).map Prod.snd))

/-- Code-point comparison of character lists, the order Python uses to
compare (and hence sort) strings. -/
def charListLe : List Char → List Char → Bool
  | [], _ => true
  | _ :: _, [] => false
  | a :: as, b :: bs => if a = b then charListLe as bs else decide (a.val < b.val)

/-- Python string comparison `a <= b` (code-point lexicographic). -/
def pyStrLe (a b : String) : Bool := charListLe a.toList b.toList

/-- Insertion into a `pyStrLe`-sorted list (helper for `pySortStr`). -/
def insertStr (x : String) : List String → List String
  | [] => [x]
  | y :: ys => if pyStrLe x y then x :: y :: ys else y :: insertStr x ys

/-- Python `list.sort()` on a list of strings (insertion sort; Python's
sort is stable, and so is this one). -/
def pySortStr : List String → List String
  | [] => []
  | x :: xs => insertStr x (pySortStr xs)

/-! ## The word-count job (`MRWordCount` in `src/example/word_count.py`) -/

namespace MRWordCount

/-- A character matched by the word regex `WORD_RE = [\w']+` on ASCII
input: alphanumerics, underscore, apostrophe. -/
def isWordChar (c : Char) : Bool :=
  c.isAlphanum || c = Char.ofNat 95 || c = Char.ofNat 39

/-- Accumulator pass behind `findWords`: collect maximal runs of word
characters, carrying the (reversed) run in progress. -/
def findWordsAux : List Char → List Char → List (List Char)
  | [], acc => if acc.isEmpty then [] else [acc.reverse]
  | c :: rest, acc =>
    if isWordChar c then findWordsAux rest (c :: acc)
    else if acc.isEmpty then findWordsAux rest []
    else acc.reverse :: findWordsAux rest []

/-- `WORD_RE.findall(line)`: the maximal runs of word characters, in
order of appearance. -/
def findWords (cs : List Char) : List (List Char) := findWordsAux cs []

/-- `mapper_get_words`: yield `(word.lower(), 1)` for every word found in
the line by `WORD_RE`. -/
def mapper_get_words (line : String) : List (String × ℕ) :=
  (findWords line.toList).map (fun w => (String.mk (w.map Char.toLower), 1))

/-- `combiner_count_words`: yield `(word, sum(counts))`. -/
def combiner_count_words (word : String) (counts : List ℕ) : List (String × ℕ) :=
  [(word, counts.sum)]

/-- `reducer_count_words`: yield `(word, sum(counts))`. -/
def reducer_count_words (word : String) (counts : List ℕ) : List (String × ℕ) :=
  [(word, counts.sum)]

/-- The single word-count stage, composed as the engine composes it when
no combiner runs: map every line, shuffle, reduce every group. -/
def wordCountJob (lines : List String) : List (String × ℕ) :=
  ((groupByKey ((lines.map mapper_get_words).flatten)).map
    (fun g => reducer_count_words g.1 g.2)).flatten

end MRWordCount

/-! ## JSON values and Python dynamic semantics on them -/

mutual
/-- A JSON value as returned by `json.loads` (objects omitted: they never
occur in this pipeline). -/
inductive JVal where
  | jnull : JVal
  | jbool (b : Bool) : JVal
  | jnum (q : ℚ) : JVal
  | jstr (s : String) : JVal
  | jarr (elems : JArr) : JVal
deriving DecidableEq
/-- A JSON array (a list of `JVal`, spelled out so equality is
structurally decidable). -/
inductive JArr where
  | nil : JArr
  | cons (hd : JVal) (tl : JArr) : JArr
deriving DecidableEq
end

/-- Build a `JArr` from a list of values. -/
def JArr.ofList : List JVal → JArr
  | [] => JArr.nil
  | v :: vs => JArr.cons v (JArr.ofList vs)

/-- The values of a `JArr` as a list. -/
def JArr.toList : JArr → List JVal
  | JArr.nil => []
  | JArr.cons v vs => v :: JArr.toList vs

/-- Length of a JSON array. -/
def JArr.length : JArr → ℕ
  | JArr.nil => 0
  | JArr.cons _ vs => JArr.length vs + 1

/-- Python truthiness of a JSON-derived value (`if neighbors:`). -/
def truthy : JVal → Bool
  | JVal.jnull => false
  | JVal.jbool b => b
  | JVal.jnum q => decide (¬ q = 0)
  | JVal.jstr s => decide (¬ s.length = 0)
  | JVal.jarr JArr.nil => false
  | JVal.jarr (JArr.cons _ _) => true

/-- Python `len(x)` on a JSON-derived value: defined for strings and
arrays, a `TypeError` (`none`) otherwise. -/
def pyLen : JVal → Option ℕ
  | JVal.jstr s => some s.length
  | JVal.jarr a => some a.length
  | _ => none

/-- Numeric coercion for Python division: numbers are numbers and
booleans count as `1`/`0`; everything else is a `TypeError` (`none`). -/
def toNumQ : JVal → Option ℚ
  | JVal.jnum q => some q
  | JVal.jbool b => some (if b then 1 else 0)
  | _ => none

/-- Python iteration over a JSON-derived value: an array yields its
elements, a string its one-character substrings; numbers, booleans and
null are not iterable (`none`, a `TypeError`). -/
def pyIter : JVal → Option (List JVal)
  | JVal.jarr a => some (JArr.toList a)
  | JVal.jstr s => some (s.toList.map (fun c => JVal.jstr (String.mk [c])))
  | _ => none

/-- The two exception kinds distinguished by the `except` clause of
`mapper_pagerank_iter`: `ValueError` (caught, `JSONDecodeError` is a
subclass) and `TypeError` (not caught). -/
inductive PyErr where
  | typeError : PyErr
  | valueError : PyErr
deriving DecidableEq

/-- Python tuple unpacking `a, b = x`: a non-iterable raises `TypeError`;
an iterable of length other than two raises `ValueError`; otherwise the
two elements are returned. -/
def unpack2 (j : JVal) : Except PyErr (JVal × JVal) :=
  match pyIter j with
  | none => Except.error PyErr.typeError
  | some [a, b] => Except.ok (a, b)
  | some _ => Except.error PyErr.valueError

/-! ## The PageRank job (`MRPageRank` in `src/page_rank.py`) -/

/-- An intermediate value of a PageRank iteration: either the graph
structure marker `('NODE', neighbors)` or a rank contribution
`('RANK', contribution)`. -/
inductive PRMsg where
  | NODE (data : JVal) : PRMsg
  | RANK (contribution : ℚ) : PRMsg
deriving DecidableEq

/-- Result of running the generator `mapper_pagerank_iter` to exhaustion:
either it returns normally, having yielded `pairs` and incremented the
`Error/JSONDecodeError` counter `errors` times, or it raises an uncaught
`TypeError` after yielding `pairsBefore`. -/
inductive MapIterResult where
  | yields (pairs : List (JVal × PRMsg)) (errors : ℕ) : MapIterResult
  | raisesTypeError (pairsBefore : List (JVal × PRMsg)) : MapIterResult
deriving DecidableEq

namespace MRPageRank

/-- Class constant `N_NODES` of `MRPageRank` (the number of nodes of the
Padgett data set).  The reducers take the node count as a parameter `N`;
the class fixes it to this value, and the spec's scenarios set it to 2. -/
def N_NODES : ℕ := 16

/-- Class constant `DAMPING_FACTOR = 0.85` of `MRPageRank`. -/
def DAMPING_FACTOR : ℚ := 85 / 100

/-- `json.dumps((rank, neighbors))`, as the parsed value it round-trips
to: the two-element JSON array `[rank, neighbors]`. -/
def dumpsPair (rank : ℚ) (neighbors : JVal) : JVal :=
  JVal.jarr (JArr.cons (JVal.jnum rank) (JArr.cons neighbors JArr.nil))

/-- `mapper_init_graph`: strip the line, split on the first tab, and
yield the `(node, value)` pair when the split produced two parts;
otherwise yield nothing. -/
def mapper_init_graph (line : String) : List (String × String) :=
  match pySplit1Tab (pyStrip line.toList) with
  | [node_key, value_part] => [(String.mk node_key, String.mk value_part)]
  | _ => []

/-- `reducer_init_graph` (node count `N` passed explicitly, the class
fixes `N = N_NODES`): collect the values that are not the `'!NODE'`
marker as neighbors; if any value at all arrived, yield the node with
`json.dumps((1.0 / N, sorted(neighbors)))`. -/
def reducer_init_graph (N : ℕ) (node : String) (values : List String) :
    List (String × JVal) :=
  match values with
  | [] => []
  | _ :: _ =>
    let neighbors := values.filter (fun v => ¬ v = "!NODE")
    let initial_rank : ℚ := 1 / N
    [(node, dumpsPair initial_rank (JVal.jarr (JArr.ofList ((pySortStr neighbors).map JVal.jstr))))]

/-- The initialization stage: map every input line, shuffle, reduce every
group. -/
def init_stage (N : ℕ) (lines : List String) : List (String × JVal) :=
  ((groupByKey ((lines.map mapper_init_graph).flatten)).map
    (fun g => reducer_init_graph N g.1 g.2)).flatten

/-- `mapper_pagerank_iter`: `json.loads` the serialized value and unpack
it into `(current_rank, neighbors)` — `JSONDecodeError`/`ValueError` is
caught, counted and ends the generator; then yield the graph structure
`(node, ('NODE', neighbors))`, and if `neighbors` is truthy yield
`(neighbor, ('RANK', current_rank / len(neighbors)))` for each neighbor.
A `TypeError` (non-iterable value to unpack, `len` of a number, dividing
a non-number) is not caught and escapes after the yields made so far. -/
def mapper_pagerank_iter (node : JVal) (value_str : Option JVal) : MapIterResult :=
  match value_str with
  | none => MapIterResult.yields [] 1
  | some j =>
    match unpack2 j with
    | Except.error PyErr.valueError => MapIterResult.yields [] 1
    | Except.error PyErr.typeError => MapIterResult.raisesTypeError []
    | Except.ok (current_rank, neighbors) =>
      let nodePair := (node, PRMsg.NODE neighbors)
      if truthy neighbors then
        match pyLen neighbors, toNumQ current_rank, pyIter neighbors with
        | some num_neighbors, some r, some elems =>
          MapIterResult.yields
            (nodePair :: elems.map (fun nb => (nb, PRMsg.RANK (r / num_neighbors)))) 0
        | _, _, _ => MapIterResult.raisesTypeError [nodePair]
      else MapIterResult.yields [nodePair] 0

/-- The pairs a mapper invocation handed to the engine (for a run that
raised, the pairs yielded before the exception). -/
def mapResultPairs : MapIterResult → List (JVal × PRMsg)
  | MapIterResult.yields ps _ => ps
  | MapIterResult.raisesTypeError ps => ps

/-- The loop of `reducer_pagerank_iter` over the received values,
carrying `(total_received_rank, neighbors, node_info_found)`:
a `('NODE', data)` value overwrites `neighbors` and sets the flag, a
`('RANK', q)` value is added to the running total. -/
def prReduceLoop : List PRMsg → ℚ × JVal × Bool → ℚ × JVal × Bool
  | [], st => st
  | PRMsg.NODE data :: rest, (total, _, _) => prReduceLoop rest (total, data, true)
  | PRMsg.RANK q :: rest, (total, nbs, found) => prReduceLoop rest (total + q, nbs, found)

/-- `reducer_pagerank_iter` (node count `N` and `damping_factor` passed
explicitly; the class fixes them to `N_NODES` and `DAMPING_FACTOR`):
fold the values with `prReduceLoop` starting from
`(0.0, [], node_info_found = False)`; if the `('NODE', …)` structure
record was found, yield the node with
`json.dumps(((1 - d) / N + d * total, neighbors))`, otherwise nothing. -/
def reducer_pagerank_iter (N : ℕ) (damping_factor : ℚ) (node : JVal)
    (values : List PRMsg) : List (JVal × JVal) :=
  match prReduceLoop values (0, JVal.jarr JArr.nil, false) with
  | (total, neighbors, true) =>
    [(node, dumpsPair ((1 - damping_factor) / N + damping_factor * total) neighbors)]
  | (_, _, false) => []

/-- One PageRank iteration stage: map every record, shuffle, reduce every
group. -/
def iter_stage (N : ℕ) (damping_factor : ℚ) (records : List (JVal × Option JVal)) :
    List (JVal × JVal) :=
  ((groupByKey ((records.map
      (fun r => mapResultPairs (mapper_pagerank_iter r.1 r.2))).flatten)).map
    (fun g => reducer_pagerank_iter N damping_factor g.1 g.2)).flatten

end MRPageRank

/-! ## Remaining definitions: step lists and rank-mass accounting -/

/-- An `MRStep(mapper=…, combiner=…, reducer=…)` descriptor.  Callbacks
are identified by their method names; a step of the Python source holds
bound-method references, which we record by name. -/
structure MRStep where
  mapper : String
  combiner : Option String
  reducer : String
deriving DecidableEq

/-- `MRPageRank.steps()`: the list of 50 identical iteration steps is
built first, then returned behind the single initialization step.  The
whole pipeline is a fixed list constructed at job-submission time; no
step is created during execution. -/
def MRPageRank.steps : List MRStep :=
  let iteration_steps : List MRStep :=
    (List.range 50).map
      (fun _ => MRStep.mk "mapper_pagerank_iter" none "reducer_pagerank_iter")
  [MRStep.mk "mapper_init_graph" none "reducer_init_graph"] ++ iteration_steps

/-- `MRWordCount.steps()`: the single word-count step with its optional
combiner. -/
def MRWordCount.steps : List MRStep :=
  [MRStep.mk "mapper_get_words" (some "combiner_count_words") "reducer_count_words"]

/-- Whether an intermediate PageRank value is a `('NODE', …)` structure
record. -/
def PRMsg.isNodeMsg : PRMsg → Bool
  | PRMsg.NODE _ => true
  | PRMsg.RANK _ => false

namespace MRPageRank

/-- Encode a well-formed node record `(node, rank, neighbors)` the way
`reducer_init_graph`/`reducer_pagerank_iter` serialize it, as the mapper
input `(key, json value)` for the next iteration. -/
def encodeRecord (rec : String × ℚ × List String) : JVal × Option JVal :=
  (JVal.jstr rec.1,
    some (dumpsPair rec.2.1 (JVal.jarr (JArr.ofList (rec.2.2.map JVal.jstr)))))

/-- The rank carried by one emitted pair: the contribution of a
`('RANK', …)` value, `0` for a `('NODE', …)` value. -/
def msgRankContribution (p : JVal × PRMsg) : ℚ :=
  match p.2 with
  | PRMsg.NODE _ => 0
  | PRMsg.RANK q => q

/-- Total rank mass of all `('RANK', …)` contributions emitted by the
stage's mappers over a list of well-formed node records. -/
def emittedRankSum (records : List (String × ℚ × List String)) : ℚ :=
  (records.map (fun rec =>
    ((mapResultPairs (mapper_pagerank_iter (encodeRecord rec).1 (encodeRecord rec).2)).map
      msgRankContribution).sum)).sum

/-- Total rank mass of the stage's input records. -/
def inputRankSum (records : List (String × ℚ × List String)) : ℚ :=
  (records.map (fun rec => rec.2.1)).sum

end MRPageRank

/-! ## Theorems -/

/-- C1: one PageRank iteration with damping factor 0.85 and N = 2 on the
graph A → [B], both ranks 0.5: composing `mapper_pagerank_iter` over both
records with `reducer_pagerank_iter` over the grouped output gives B the
new rank 0.15/2 + 0.85·0.5 = 0.5 and A (no inbound links) the new rank
0.15/2 + 0.85·0 = 0.075, each keeping its neighbor list unchanged. -/
theorem pagerank_iteration_scenario :
    MRPageRank.iter_stage 2 MRPageRank.DAMPING_FACTOR
      [(JVal.jstr "A",
          some (MRPageRank.dumpsPair (1/2) (JVal.jarr (JArr.cons (JVal.jstr "B") JArr.nil)))),
       (JVal.jstr "B", some (MRPageRank.dumpsPair (1/2) (JVal.jarr JArr.nil)))] =
      [(JVal.jstr "A",
          MRPageRank.dumpsPair (3/40) (JVal.jarr (JArr.cons (JVal.jstr "B") JArr.nil))),
       (JVal.jstr "B", MRPageRank.dumpsPair (1/2) (JVal.jarr JArr.nil))] := by
  show [(JVal.jstr "A",
          MRPageRank.dumpsPair
            ((1 - MRPageRank.DAMPING_FACTOR) / ((2:ℕ):ℚ) + MRPageRank.DAMPING_FACTOR * 0)
            (JVal.jarr (JArr.cons (JVal.jstr "B") JArr.nil))),
        (JVal.jstr "B",
          MRPageRank.dumpsPair
            ((1 - MRPageRank.DAMPING_FACTOR) / ((2:ℕ):ℚ) +
              MRPageRank.DAMPING_FACTOR * (0 + (1/2 : ℚ) / ((1:ℕ):ℚ)))
            (JVal.jarr JArr.nil))] = _
  norm_num [MRPageRank.dumpsPair, MRPageRank.DAMPING_FACTOR]

/-- C2: the init stage with N = 2 on the lines `"A\t!NODE"`, `"A\tB"`,
`"B\t!NODE"`: composing `mapper_init_graph` with `reducer_init_graph`
over the grouped output yields exactly node A with rank 1/2 and neighbor
list `["B"]` and node B with rank 1/2 and neighbor list `[]`; the
`'!NODE'` markers are excluded from the neighbor lists. -/
theorem pagerank_init_scenario :
    MRPageRank.init_stage 2 ["A\t!NODE", "A\tB", "B\t!NODE"] =
      [("A", MRPageRank.dumpsPair (1/2) (JVal.jarr (JArr.cons (JVal.jstr "B") JArr.nil))),
       ("B", MRPageRank.dumpsPair (1/2) (JVal.jarr JArr.nil))] := by
  show [("A", MRPageRank.dumpsPair (1 / ((2:ℕ):ℚ))
          (JVal.jarr (JArr.cons (JVal.jstr "B") JArr.nil))),
        ("B", MRPageRank.dumpsPair (1 / ((2:ℕ):ℚ)) (JVal.jarr JArr.nil))] = _
  norm_num [MRPageRank.dumpsPair]

/-- C3: the word-count job on the lines `"the cat sat"` and
`"the dog sat"` yields exactly the mapping
`{the ↦ 2, cat ↦ 1, sat ↦ 2, dog ↦ 1}` (stated up to permutation, so the
key set is order-independent, and each count is exact). -/
theorem wordcount_scenario :
    (MRWordCount.wordCountJob ["the cat sat", "the dog sat"]).Perm
      [("the", 2), ("cat", 1), ("sat", 2), ("dog", 1)] := by decide

/-- C5: `MRPageRank.steps()` is the fixed list built at submission time:
exactly 51 stages, the initialization stage followed by 50 identical
iteration stages; being a constant list, nothing is generated during
execution. -/
theorem pagerank_steps_sequence :
    MRPageRank.steps =
      MRStep.mk "mapper_init_graph" none "reducer_init_graph" ::
        List.replicate 50 (MRStep.mk "mapper_pagerank_iter" none "reducer_pagerank_iter") ∧
    MRPageRank.steps.length = 51 := by
  exact ⟨by decide, by decide⟩

/-- C7 counterexample: `"5"` is valid JSON, so `json.loads` succeeds,
but unpacking the non-iterable number 5 raises a `TypeError`, which the
`except (JSONDecodeError, ValueError)` clause does not catch: the mapper
propagates the exception instead of counting the error and yielding
nothing. -/
theorem mapper_iter_uncaught_typeerror_cex :
    MRPageRank.mapper_pagerank_iter (JVal.jstr "A") (some (JVal.jnum 5)) =
      MapIterResult.raisesTypeError [] ∧
    ¬ MRPageRank.mapper_pagerank_iter (JVal.jstr "A") (some (JVal.jnum 5)) =
      MapIterResult.yields [] 1 := by
  exact ⟨by decide, by decide⟩

/-- C7 (amended): for every serialized value that is not valid JSON
(`json.loads` raises `JSONDecodeError`) or whose parsed value is an
iterable that does not unpack into exactly two components (`ValueError`),
`mapper_pagerank_iter` increments the `Error`/`JSONDecodeError` counter
once and yields nothing, propagating no exception; inputs parsing to a
non-iterable value instead raise an uncaught `TypeError` (see the
counterexample). -/
theorem mapper_iter_caught_errors (node : JVal) (value_str : Option JVal)
    (h : value_str = none ∨
      ∃ j, value_str = some j ∧ unpack2 j = Except.error PyErr.valueError) :
    MRPageRank.mapper_pagerank_iter node value_str = MapIterResult.yields [] 1 := by
  rcases h with h | ⟨j, rfl, hj⟩
  · rw [h]
    rfl
  · simp [MRPageRank.mapper_pagerank_iter, hj]

/-- Witness for C7's amended theorem: a three-element JSON array raises
`ValueError` on unpacking, so the mapper counts it and yields nothing. -/
theorem mapper_iter_caught_errors_witness :
    ((some (JVal.jarr (JArr.ofList [JVal.jnum 1, JVal.jnum 2, JVal.jnum 3])) : Option JVal) = none ∨
      ∃ j, (some (JVal.jarr (JArr.ofList [JVal.jnum 1, JVal.jnum 2, JVal.jnum 3])) : Option JVal) = some j ∧
        unpack2 j = Except.error PyErr.valueError) ∧
    MRPageRank.mapper_pagerank_iter (JVal.jstr "A")
      (some (JVal.jarr (JArr.ofList [JVal.jnum 1, JVal.jnum 2, JVal.jnum 3]))) =
      MapIterResult.yields [] 1 :=
  ⟨Or.inr ⟨_, rfl, rfl⟩,
    mapper_iter_caught_errors _ _ (Or.inr ⟨_, rfl, rfl⟩)⟩

/-- C8: every user callback of both jobs is a pure function of its input
key and value sequence — the embedding has no ambient state — so two
invocations on the same input agree, and running a whole composed stage
twice on the same input gives identical output. -/
theorem callbacks_deterministic :
    (∀ line, MRWordCount.mapper_get_words line = MRWordCount.mapper_get_words line) ∧
    (∀ w cs, MRWordCount.combiner_count_words w cs = MRWordCount.combiner_count_words w cs) ∧
    (∀ w cs, MRWordCount.reducer_count_words w cs = MRWordCount.reducer_count_words w cs) ∧
    (∀ line, MRPageRank.mapper_init_graph line = MRPageRank.mapper_init_graph line) ∧
    (∀ N node vs, MRPageRank.reducer_init_graph N node vs =
      MRPageRank.reducer_init_graph N node vs) ∧
    (∀ node v, MRPageRank.mapper_pagerank_iter node v =
      MRPageRank.mapper_pagerank_iter node v) ∧
    (∀ N d node vs, MRPageRank.reducer_pagerank_iter N d node vs =
      MRPageRank.reducer_pagerank_iter N d node vs) ∧
    (∀ lines, MRWordCount.wordCountJob lines = MRWordCount.wordCountJob lines) ∧
    (∀ N lines, MRPageRank.init_stage N lines = MRPageRank.init_stage N lines) ∧
    (∀ N d records, MRPageRank.iter_stage N d records = MRPageRank.iter_stage N d records) :=
  ⟨fun _ => rfl, fun _ _ => rfl, fun _ _ => rfl, fun _ => rfl, fun _ _ _ => rfl,
    fun _ _ => rfl, fun _ _ _ _ => rfl, fun _ => rfl, fun _ _ => rfl, fun _ _ _ => rfl⟩

/-- Summing the singleton combiner outputs over any grouping gives the
sum of the flattened raw counts. -/
theorem sum_flatten_singleton (gs : List (List ℕ)) :
    ((gs.map (fun g => [g.sum])).flatten).sum = (gs.flatten).sum := by
  induction gs with
  | nil => rfl
  | cons g rest ih => simp [ih]

/-- C4: for every word and every partition of its mapper-emitted counts
into per-worker groups (`raw` a permutation of `groups.flatten`), running
`combiner_count_words` on each group and `reducer_count_words` on the
combiner outputs equals running `reducer_count_words` directly on the raw
counts: the combiner is a valid pre-reduction. -/
theorem combiner_prereduction_sound (word : String) (raw : List ℕ) (groups : List (List ℕ))
    (hpart : raw.Perm groups.flatten) :
    MRWordCount.reducer_count_words word
        ((groups.map (fun g => (MRWordCount.combiner_count_words word g).map Prod.snd)).flatten) =
      MRWordCount.reducer_count_words word raw := by
  simp only [MRWordCount.reducer_count_words, MRWordCount.combiner_count_words,
    List.map_cons, List.map_nil]
  rw [sum_flatten_singleton, hpart.sum_eq]

/-- Witness for C4 at the word `"the"`, raw counts `[1, 1, 1]` split into
the groups `[1]` and `[1, 1]`. -/
theorem combiner_prereduction_sound_witness :
    ([1, 1, 1] : List ℕ).Perm ([[1], [1, 1]] : List (List ℕ)).flatten ∧
    MRWordCount.reducer_count_words "the"
        (([[1], [1, 1]].map
          (fun g => (MRWordCount.combiner_count_words "the" g).map Prod.snd)).flatten) =
      MRWordCount.reducer_count_words "the" [1, 1, 1] :=
  ⟨by decide, combiner_prereduction_sound "the" [1, 1, 1] [[1], [1, 1]] (by decide)⟩

namespace MRPageRank

/-- If no `('NODE', …)` value is among the received values, the
`node_info_found` flag of the reducer loop stays `False`. -/
theorem prReduceLoop_no_node_flag (values : List PRMsg)
    (h : ∀ v ∈ values, PRMsg.isNodeMsg v = false) :
    ∀ t nbs, (prReduceLoop values (t, nbs, false)).2.2 = false := by
  induction values with
  | nil => intro t nbs; rfl
  | cons v rest ih =>
    intro t nbs
    cases v with
    | NODE data =>
      exact absurd (h _ (List.mem_cons_self _ _)) (by simp [PRMsg.isNodeMsg])
    | RANK q =>
      exact ih (fun w hw => h w (List.mem_cons_of_mem _ hw)) _ _

/-- C9: a key whose group contains no `('NODE', neighbors)` value — e.g.
a link target that was never declared as a node — makes
`reducer_pagerank_iter` yield nothing, so the key and every rank
contribution sent to it are dropped from the next iteration's input. -/
theorem reducer_iter_drops_nodeless (N : ℕ) (d : ℚ) (node : JVal) (values : List PRMsg)
    (h : ∀ v ∈ values, PRMsg.isNodeMsg v = false) :
    reducer_pagerank_iter N d node values = [] := by
  have hflag := prReduceLoop_no_node_flag values h 0 (JVal.jarr JArr.nil)
  unfold reducer_pagerank_iter
  rcases heq : prReduceLoop values (0, JVal.jarr JArr.nil, false) with ⟨t, nbs, flag⟩
  rw [heq] at hflag
  simp only at hflag
  subst hflag
  rfl

/-- Witness for C9: a group holding a single rank contribution and no
structure record reduces to nothing. -/
theorem reducer_iter_drops_nodeless_witness :
    (∀ v ∈ [PRMsg.RANK 1], PRMsg.isNodeMsg v = false) ∧
    reducer_pagerank_iter 2 DAMPING_FACTOR (JVal.jstr "X") [PRMsg.RANK 1] = [] :=
  ⟨by decide,
    reducer_iter_drops_nodeless 2 DAMPING_FACTOR (JVal.jstr "X") [PRMsg.RANK 1] (by decide)⟩

end MRPageRank

/-- Dropping the while-not-tab prefix of a tab-free character list drops
everything. -/
theorem dropWhile_no_tab (l : List Char) (h : ¬ tabChar ∈ l) :
    l.dropWhile (fun c => ¬ c = tabChar) = [] := by
  rw [List.dropWhile_eq_nil_iff]
  intro x hx
  simp only [decide_eq_true_eq]
  intro hxx
  exact h (hxx ▸ hx)

/-- Taking the while-not-tab prefix of `pre ++ '\t' :: post` with `pre`
tab-free gives exactly `pre`. -/
theorem takeWhile_until_tab (pre post : List Char) (h : ¬ tabChar ∈ pre) :
    (pre ++ tabChar :: post).takeWhile (fun c => ¬ c = tabChar) = pre := by
  rw [List.takeWhile_append_of_pos, List.takeWhile_cons_of_neg]
  · simp
  · simp
  · intro a ha
    simp only [decide_eq_true_eq]
    intro hxx
    exact h (hxx ▸ ha)

/-- Dropping the while-not-tab prefix of `pre ++ '\t' :: post` with `pre`
tab-free leaves `'\t' :: post`. -/
theorem dropWhile_until_tab (pre post : List Char) (h : ¬ tabChar ∈ pre) :
    (pre ++ tabChar :: post).dropWhile (fun c => ¬ c = tabChar) = tabChar :: post := by
  rw [List.dropWhile_append_of_pos, List.dropWhile_cons_of_neg]
  · simp
  · intro a ha
    simp only [decide_eq_true_eq]
    intro hxx
    exact h (hxx ▸ ha)

/-- C10: on every input line, `mapper_init_graph` yields nothing when the
stripped line has no tab, and otherwise yields exactly one pair — the
text before the first tab and the whole text after it (tabs in the value
part preserved); malformed tab-less lines are skipped without error. -/
theorem mapper_init_split_first_tab (line : String) :
    (¬ tabChar ∈ pyStrip line.toList → MRPageRank.mapper_init_graph line = []) ∧
    (∀ pre post : List Char, pyStrip line.toList = pre ++ tabChar :: post →
      ¬ tabChar ∈ pre →
      MRPageRank.mapper_init_graph line = [(String.mk pre, String.mk post)]) := by
  constructor
  · intro h
    unfold MRPageRank.mapper_init_graph pySplit1Tab
    rw [dropWhile_no_tab _ h]
  · intro pre post hsplit hpre
    unfold MRPageRank.mapper_init_graph pySplit1Tab
    rw [hsplit, dropWhile_until_tab _ _ hpre, takeWhile_until_tab _ _ hpre]

/-- Witness for C10 on the line `"A\tB\tC"`: split at the first tab only,
the second tab stays inside the value part. -/
theorem mapper_init_split_first_tab_witness :
    pyStrip "A\tB\tC".toList = "A".toList ++ tabChar :: "B\tC".toList ∧
    ¬ tabChar ∈ "A".toList ∧
    MRPageRank.mapper_init_graph "A\tB\tC" = [(String.mk "A".toList, String.mk "B\tC".toList)] :=
  ⟨by decide, by decide,
    (mapper_init_split_first_tab "A\tB\tC").2 "A".toList "B\tC".toList (by decide) (by decide)⟩

/-- `JArr.ofList` preserves length. -/
theorem JArr.length_ofList (l : List JVal) : (JArr.ofList l).length = l.length := by
  induction l with
  | nil => rfl
  | cons v vs ih => simp [JArr.ofList, JArr.length, ih]

/-- `JArr.toList` inverts `JArr.ofList`. -/
theorem JArr.toList_ofList (l : List JVal) : (JArr.ofList l).toList = l := by
  induction l with
  | nil => rfl
  | cons v vs ih => simp [JArr.ofList, JArr.toList, ih]

/-- Sum of a constant-valued map. -/
theorem sum_map_constQ {α : Type} (l : List α) (c : ℚ) :
    (l.map (fun _ => c)).sum = l.length * c := by
  induction l with
  | nil => simp
  | cons a as ih =>
    simp [ih]
    ring

namespace MRPageRank

/-- The total `('RANK', …)` mass one mapper invocation emits for a
well-formed record: nothing for a dangling node, exactly the node's
current rank otherwise (the rank is split evenly over `len(neighbors)`
contributions). -/
theorem mapper_record_mass (k : String) (r : ℚ) (ns : List String) :
    ((mapResultPairs (mapper_pagerank_iter (encodeRecord (k, r, ns)).1
        (encodeRecord (k, r, ns)).2)).map msgRankContribution).sum =
      if ns = [] then 0 else r := by
  cases ns with
  | nil =>
    simp [encodeRecord, dumpsPair, mapper_pagerank_iter, unpack2, pyIter, JArr.toList,
      truthy, mapResultPairs, msgRankContribution, JArr.ofList]
  | cons hd tl =>
    have hn : ((tl.length : ℚ) + 1) ≠ 0 := by positivity
    simp only [encodeRecord, dumpsPair, List.map_cons, JArr.ofList, mapper_pagerank_iter,
      unpack2, pyIter, JArr.toList, truthy, pyLen, toNumQ, JArr.toList_ofList]
    simp only [if_true, mapResultPairs]
    simp only [List.map_cons, List.map_map, List.sum_cons, Function.comp_def]
    simp only [msgRankContribution]
    simp only [JArr.length, JArr.length_ofList, List.length_map]
    rw [sum_map_constQ]
    rw [if_neg (List.cons_ne_nil hd tl)]
    push_cast
    field_simp
    ring

/-- The stage's emitted rank mass, record by record: dangling nodes
contribute nothing, all other nodes their full rank. -/
theorem emittedRankSum_eq (records : List (String × ℚ × List String)) :
    emittedRankSum records =
      (records.map (fun rec => if rec.2.2 = [] then 0 else rec.2.1)).sum := by
  unfold emittedRankSum
  congr 1
  apply List.map_congr_left
  intro rec hrec
  rcases rec with ⟨k, r, ns⟩
  exact mapper_record_mass k r ns

/-- With nonnegative ranks, the per-record emitted mass never exceeds the
record's rank. -/
theorem ite_rank_le (l : List (String × ℚ × List String))
    (h1 : ∀ rec ∈ l, 0 ≤ rec.2.1) :
    (l.map (fun rec => if rec.2.2 = [] then 0 else rec.2.1)).sum ≤
      (l.map (fun rec => rec.2.1)).sum := by
  apply List.sum_le_sum
  intro rec hrec
  by_cases hc : rec.2.2 = []
  · simp only [hc, if_pos]
    exact h1 rec hrec
  · simp [hc]

/-- With nonnegative ranks and at least one dangling node of positive
rank, the emitted mass is strictly below the input mass. -/
theorem ite_rank_lt (l : List (String × ℚ × List String))
    (h1 : ∀ rec ∈ l, 0 ≤ rec.2.1)
    (h2 : ∃ rec ∈ l, rec.2.2 = [] ∧ 0 < rec.2.1) :
    (l.map (fun rec => if rec.2.2 = [] then 0 else rec.2.1)).sum <
      (l.map (fun rec => rec.2.1)).sum := by
  induction l with
  | nil => rcases h2 with ⟨rec, hmem, _⟩; cases hmem
  | cons a rest ih =>
    rcases h2 with ⟨rec, hmem, hdang, hpos⟩
    simp only [List.map_cons, List.sum_cons]
    rcases List.mem_cons.mp hmem with heq | hmem2
    · subst heq
      rw [if_pos hdang]
      have hle := ite_rank_le rest (fun w hw => h1 w (List.mem_cons_of_mem _ hw))
      calc (0:ℚ) + (rest.map (fun r2 => if r2.2.2 = [] then 0 else r2.2.1)).sum
          ≤ 0 + (rest.map (fun r2 => r2.2.1)).sum := by linarith
        _ < rec.2.1 + (rest.map (fun r2 => r2.2.1)).sum := by linarith
    · have hhead : (if a.2.2 = [] then (0:ℚ) else a.2.1) ≤ a.2.1 := by
        by_cases hc : a.2.2 = []
        · rw [if_pos hc]
          exact h1 a (List.mem_cons_self _ _)
        · rw [if_neg hc]
      have htail := ih (fun w hw => h1 w (List.mem_cons_of_mem _ hw)) ⟨rec, hmem2, hdang, hpos⟩
      exact add_lt_add_of_le_of_lt hhead htail

/-- C6: a record with an empty neighbor list makes `mapper_pagerank_iter`
yield exactly the single pair `(node, ('NODE', []))` and no
`('RANK', …)` pair, so its rank is dropped; consequently a stage whose
(nonnegatively ranked) input contains a dangling node of positive rank
emits strictly less total `RANK` mass than the ranks it received. -/
theorem dangling_node_drops_rank (node : JVal) (r : ℚ)
    (records : List (String × ℚ × List String))
    (h1 : ∀ rec ∈ records, 0 ≤ rec.2.1)
    (h2 : ∃ rec ∈ records, rec.2.2 = [] ∧ 0 < rec.2.1) :
    mapResultPairs (mapper_pagerank_iter node (some (dumpsPair r (JVal.jarr JArr.nil)))) =
      [(node, PRMsg.NODE (JVal.jarr JArr.nil))] ∧
    emittedRankSum records < inputRankSum records := by
  refine ⟨rfl, ?_⟩
  rw [emittedRankSum_eq]
  exact ite_rank_lt records h1 h2

/-- Witness for C6: the one-record stage `[("A", rank 1, no neighbors)]`
emits rank mass 0 < 1. -/
theorem dangling_node_drops_rank_witness :
    (∀ rec ∈ ([("A", 1, [])] : List (String × ℚ × List String)), 0 ≤ rec.2.1) ∧
    (∃ rec ∈ ([("A", 1, [])] : List (String × ℚ × List String)), rec.2.2 = [] ∧ 0 < rec.2.1) ∧
    (mapResultPairs (mapper_pagerank_iter (JVal.jstr "Z")
        (some (dumpsPair 1 (JVal.jarr JArr.nil)))) =
      [(JVal.jstr "Z", PRMsg.NODE (JVal.jarr JArr.nil))] ∧
    emittedRankSum [("A", 1, [])] < inputRankSum [("A", 1, [])]) := by
  have h1 : ∀ rec ∈ ([("A", 1, [])] : List (String × ℚ × List String)), 0 ≤ rec.2.1 := by
    intro rec hrec
    simp only [List.mem_singleton] at hrec
    rw [hrec]
    norm_num
  have h2 : ∃ rec ∈ ([("A", 1, [])] : List (String × ℚ × List String)),
      rec.2.2 = [] ∧ 0 < rec.2.1 :=
    ⟨("A", 1, []), List.mem_singleton.mpr rfl, rfl, by norm_num⟩
  exact ⟨h1, h2, dangling_node_drops_rank (JVal.jstr "Z") 1 [("A", 1, [])] h1 h2⟩

end MRPageRank
